import Mathlib

/-!
Shallow embedding of the TodoSecure backend (`src/backend/main.py`), a FastAPI
application storing all state in in-memory Python dicts.  Python dicts are
modelled as insertion-ordered association lists with first-match lookup;
assigning to an existing key replaces the first matching entry in place,
assigning a fresh key appends at the end, exactly as Python dict semantics
observable through the endpoints.

Nondeterministic inputs of the source (the `datetime.now(...)` timestamp, the
`secrets.token_hex(32)` token) are passed to the operations as explicit
arguments.  The SHA-256 digest `hash_password` calls into `hashlib`, outside
the repository's own code; it is modelled as an explicit digest-function
argument `hashp` to `register`/`login`, since no claim depends on properties
of the digest itself.  `EmailStr` format checking is performed by an external
library and is likewise not embedded; no claim depends on it.

HTTP errors are modelled as a status code plus detail string, matching the
`HTTPException(status_code=..., detail=...)` raise sites; pydantic request
validation (which runs before a handler body and yields 422) is embedded as a
validation function applied first in each operation, code 422.
-/

set_option autoImplicit false

namespace TodoSecure

/-- A raised `HTTPException`: status code and detail message. -/
structure HTTPError where
  statusCode : Nat
  detail : String
deriving DecidableEq, Repr

/-- First-match lookup in an association list (Python `d[k]` / `k in d`). -/
def dictGet {α β : Type} [DecidableEq α] (d : List (α × β)) (k : α) : Option β :=
  match d with
  | [] => none
  | (k', v) :: rest => if k = k' then some v else dictGet rest k

/-- Python `d[k] = v`: replace the first entry with key `k`, else append. -/
def dictSet {α β : Type} [DecidableEq α] (d : List (α × β)) (k : α) (v : β) :
    List (α × β) :=
  match d with
  | [] => [(k, v)]
  | (k', v') :: rest => if k = k' then (k, v) :: rest else (k', v') :: dictSet rest k v

/-- Python `del d[k]`: drop the first entry with key `k`. -/
def dictDel {α β : Type} [DecidableEq α] (d : List (α × β)) (k : α) : List (α × β) :=
  match d with
  | [] => []
  | (k', v') :: rest => if k = k' then rest else (k', v') :: dictDel rest k

/-- Python `k in d`. -/
def dictHas {α β : Type} [DecidableEq α] (d : List (α × β)) (k : α) : Bool :=
  (dictGet d k).isSome

/-- A stored TODO record (the dict built in `create_todo`). -/
structure Todo where
  id : Nat
  user_id : Nat
  title : String
  description : Option String
  due_date : Option String
  priority : Int
  completed : Bool
  created_at : String
deriving DecidableEq, Repr

/-- A stored user record (the dict built in `register`; `password` holds the
digest of the plaintext password). -/
structure UserData where
  id : Nat
  username : String
  email : String
  password : String
  created_at : String
deriving DecidableEq, Repr

/-- The module-level mutable state of `main.py`: `user_todos`, `users_db`,
`sessions`, `current_user_id`, `current_todo_id`. -/
structure ServerState where
  user_todos : List (Nat × List (Nat × Todo))
  users_db : List (String × UserData)
  sessions : List (String × Nat)
  current_user_id : Nat
  current_todo_id : List (Nat × Nat)
deriving DecidableEq, Repr

/-- Outcome of one request: the state after the call together with either a
successful value or a raised `HTTPError`.  Handlers mutate module state in
place, so a 404 raised after the lazy scope initialization still leaves that
initialization behind; `err` therefore carries the resulting state too. -/
inductive ReqResult (α : Type) where
  | ok (st : ServerState) (val : α)
  | err (st : ServerState) (e : HTTPError)
deriving DecidableEq, Repr

/-- The state after the request, whether it succeeded or raised. -/
def ReqResult.state {α : Type} : ReqResult α → ServerState
  | .ok st _ => st
  | .err st _ => st

/-- The successful value, when the request did not raise. -/
def ReqResult.val? {α : Type} : ReqResult α → Option α
  | .ok _ v => some v
  | .err _ _ => none

/-- The raised error, when the request raised. -/
def ReqResult.err? {α : Type} : ReqResult α → Option HTTPError
  | .ok _ _ => none
  | .err _ e => some e

/-- Status code of the raised error, when the request raised. -/
def ReqResult.errCode {α : Type} (r : ReqResult α) : Option Nat :=
  r.err?.map HTTPError.statusCode

/-- Status code of a pydantic validation outcome, when it failed. -/
def exceptErrCode {α : Type} : Except HTTPError α → Option Nat
  | .ok _ => none
  | .error e => some e.statusCode

/-- The values of a user's scope in `user_todos`; a user without an entry has
an empty scope. -/
def scopeOf (st : ServerState) (user_id : Nat) : List (Nat × Todo) :=
  (dictGet st.user_todos user_id).getD []

/-- Lookup of one task in one user's scope. -/
def scopeGet (st : ServerState) (user_id todo_id : Nat) : Option Todo :=
  dictGet (scopeOf st user_id) todo_id

/-- The per-user next-task-id counter, defaulting to 1 as the lazy
initialization in `get_user_todos` does. -/
def cOf (c : List (Nat × Nat)) (u : Nat) : Nat :=
  (dictGet c u).getD 1

/-- `get_user_todos`: lazily create the user's scope and counter, then return
the (possibly updated) state with that scope and counter value. -/
def get_user_todos (st : ServerState) (user_id : Nat) :
    ServerState × List (Nat × Todo) × Nat :=
  let ut := if dictHas st.user_todos user_id then st.user_todos
            else dictSet st.user_todos user_id []
  let ct := if dictHas st.current_todo_id user_id then st.current_todo_id
            else dictSet st.current_todo_id user_id 1
  let st' := { st with user_todos := ut, current_todo_id := ct }
  (st', (dictGet ut user_id).getD [], (dictGet ct user_id).getD 1)

/-- Request body of `POST /register` (`UserRegister`). -/
structure UserRegister where
  username : String
  email : String
  password : String
deriving DecidableEq, Repr

/-- Pydantic validation of `UserRegister`: `username` 3..50 chars,
`password` at least 6 chars.  (`EmailStr` checking is external, see header.) -/
def validate_user_register (r : UserRegister) : Except HTTPError UserRegister :=
  if r.username.length < 3 ∨ 50 < r.username.length then
    .error ⟨422, "username length out of range"⟩
  else if r.password.length < 6 then
    .error ⟨422, "password shorter than 6 characters"⟩
  else
    .ok r

/-- Request body of `POST /todos` and `PUT /todos/a` (`TodoCreate`, i.e.
`TodoBase`).  `priority` is an `Int` so that out-of-range request values such
as 0 and 6 are representable. -/
structure TodoCreate where
  title : String
  description : Option String
  due_date : Option String
  priority : Int
  completed : Bool
deriving DecidableEq, Repr

/-- Python `str.strip()`: drop whitespace characters from both ends.
Defined by structural recursion over the character list so that it evaluates
inside the kernel (`String.trim` is defined by well-founded recursion on
`Substring` positions and does not). -/
def pyStrip (s : String) : String :=
  ⟨((s.data.dropWhile Char.isWhitespace).reverse.dropWhile
      Char.isWhitespace).reverse⟩

/-- Whether an optional description satisfies `max_length=500`. -/
def descLenOk : Option String → Bool
  | none => true
  | some d => d.length ≤ 500

/-- Pydantic validation of `TodoCreate`: field constraints
(`min_length=1`, `max_length=100` on the raw title, description `≤ 500`,
`1 ≤ priority ≤ 5`) plus the `validate_title` field validator, which strips
the title (Python `.strip()`, modelled by `pyStrip`) and rejects a blank
result, returning the stripped title. -/
def validate_todo_create (t : TodoCreate) : Except HTTPError TodoCreate :=
  if t.title.length < 1 then
    .error ⟨422, "title shorter than 1 character"⟩
  else if 100 < t.title.length then
    .error ⟨422, "title longer than 100 characters"⟩
  else if pyStrip t.title = "" then
    .error ⟨422, "Title cannot be empty or just whitespace"⟩
  else if ¬ descLenOk t.description then
    .error ⟨422, "description longer than 500 characters"⟩
  else if t.priority < 1 ∨ 5 < t.priority then
    .error ⟨422, "priority out of range"⟩
  else
    .ok { t with title := pyStrip t.title }

/-- Request body of `PATCH /todos/a` (`TodoUpdate`).  The outer `Option` is
pydantic's set/unset distinction (`exclude_unset`); the inner `Option` is an
explicit JSON null.  `TodoUpdate` declares no `validate_title` validator, so
only the raw `Field` constraints apply. -/
structure TodoUpdate where
  title : Option (Option String)
  description : Option (Option String)
  due_date : Option (Option String)
  priority : Option (Option Int)
  completed : Option (Option Bool)
deriving DecidableEq, Repr

/-- `TodoUpdate.title` violates `min_length=1`/`max_length=100`; a pydantic
`Field` constraint is checked only when the field is set to a non-null value
(an explicit null always passes; there is no strip validator here). -/
def titleLenBad : Option (Option String) → Bool
  | some (some t) => decide (t.length < 1) || decide (100 < t.length)
  | _ => false

/-- `TodoUpdate.description` violates `max_length=500`. -/
def descLenBad : Option (Option String) → Bool
  | some (some d) => decide (500 < d.length)
  | _ => false

/-- `TodoUpdate.priority` violates `ge=1`/`le=5`. -/
def priorityBad : Option (Option Int) → Bool
  | some (some p) => decide (p < 1) || decide (5 < p)
  | _ => false

/-- Pydantic validation of `TodoUpdate`: the per-field `Field` constraints
and nothing else (`TodoUpdate` declares no `validate_title` strip check). -/
def validate_todo_update (u : TodoUpdate) : Except HTTPError TodoUpdate :=
  if titleLenBad u.title then
    .error ⟨422, "title length out of range"⟩
  else if descLenBad u.description then
    .error ⟨422, "description longer than 500 characters"⟩
  else if priorityBad u.priority then
    .error ⟨422, "priority out of range"⟩
  else
    .ok u

/-- The `update_todo` patch loop: `model_dump(exclude_unset=True)` keeps only
set fields, and the loop skips a value that is `None`, so only set, non-null
fields overwrite the stored record. -/
def applyUpdate (todo : Todo) (u : TodoUpdate) : Todo :=
  { todo with
    title := match u.title with | some (some t) => t | _ => todo.title
    description := match u.description with | some (some d) => some d | _ => todo.description
    due_date := match u.due_date with | some (some d) => some d | _ => todo.due_date
    priority := match u.priority with | some (some p) => p | _ => todo.priority
    completed := match u.completed with | some (some c) => c | _ => todo.completed }

/-- The 404 detail string used by every todo endpoint. -/
def notFoundErr (todo_id : Nat) : HTTPError :=
  ⟨404, "TODO with id " ++ toString todo_id ++ " not found"⟩

/-- The in-place write `todos[todo_id] = t` performed by the create, replace,
patch and toggle handlers after `get_user_todos`: the module state after the
lazy initialization, with `t` stored under `todo_id` in that user scope. -/
def writeBack (st : ServerState) (user_id todo_id : Nat) (t : Todo) : ServerState :=
  { (get_user_todos st user_id).1 with
      user_todos := dictSet (get_user_todos st user_id).1.user_todos user_id
                      (dictSet (get_user_todos st user_id).2.1 todo_id t) }

/-- `POST /register`.  `hashp` is the digest function, `now` the creation
timestamp, `tok` the freshly generated session token. -/
def register (st : ServerState) (input : UserRegister)
    (hashp : String → String) (now tok : String) : ReqResult String :=
  match validate_user_register input with
  | .error e => .err st e
  | .ok user =>
    if dictHas st.users_db user.username then
      .err st ⟨400, "Username already exists"⟩
    else
      let uid := st.current_user_id
      let user_data : UserData :=
        { id := uid, username := user.username, email := user.email
          password := hashp user.password, created_at := now }
      .ok { st with
              users_db := dictSet st.users_db user.username user_data
              sessions := dictSet st.sessions tok uid
              user_todos := dictSet st.user_todos uid []
              current_todo_id := dictSet st.current_todo_id uid 1
              current_user_id := uid + 1 }
          tok

/-- `POST /login`: `UserLogin` has no field constraints; unknown username and
digest mismatch raise at two distinct sites. -/
def login (st : ServerState) (username password : String)
    (hashp : String → String) (tok : String) : ReqResult String :=
  match dictGet st.users_db username with
  | none => .err st ⟨401, "Invalid username or password"⟩
  | some stored =>
    if stored.password ≠ hashp password then
      .err st ⟨401, "Invalid username or password"⟩
    else
      .ok { st with sessions := dictSet st.sessions tok stored.id } tok

/-- `POST /logout`: drop the session if present, always report success. -/
def logout (st : ServerState) (tok : String) : ReqResult String :=
  .ok { st with sessions := if dictHas st.sessions tok
                            then dictDel st.sessions tok
                            else st.sessions }
      "Logged out successfully"

/-- `get_current_user`: resolve a bearer token to a user id, 401 if the token
is unknown or its user id is no longer in `users_db`. -/
def get_current_user (st : ServerState) (tok : String) :
    Except HTTPError Nat :=
  match dictGet st.sessions tok with
  | none => .error ⟨401, "Invalid or expired token"⟩
  | some user_id =>
    if st.users_db.any (fun kv => kv.2.id = user_id) then .ok user_id
    else .error ⟨401, "User not found"⟩

/-- `POST /todos` after token resolution: validate, read the scope, store a
record under the next id, bump the counter. -/
def create_todo (st : ServerState) (user_id : Nat) (input : TodoCreate)
    (now : String) : ReqResult Todo :=
  match validate_todo_create input with
  | .error e => .err st e
  | .ok todo =>
    let next_id := (get_user_todos st user_id).2.2
    let new_todo : Todo :=
      { id := next_id, user_id := user_id, title := todo.title
        description := todo.description, due_date := todo.due_date
        priority := todo.priority, completed := todo.completed
        created_at := now }
    .ok { writeBack st user_id next_id new_todo with
            current_todo_id := dictSet (get_user_todos st user_id).1.current_todo_id
                                 user_id (next_id + 1) }
        new_todo

/-- `GET /todos`: the values of the user's scope, in insertion order. -/
def list_todos (st : ServerState) (user_id : Nat) : ReqResult (List Todo) :=
  .ok (get_user_todos st user_id).1 ((get_user_todos st user_id).2.1.map Prod.snd)

/-- `GET /todos/a`. -/
def get_todo (st : ServerState) (user_id todo_id : Nat) : ReqResult Todo :=
  match dictGet (get_user_todos st user_id).2.1 todo_id with
  | none => .err (get_user_todos st user_id).1 (notFoundErr todo_id)
  | some t => .ok (get_user_todos st user_id).1 t

/-- `PUT /todos/a`: full overwrite of the mutable fields, keeping the stored
`created_at`. -/
def replace_todo (st : ServerState) (user_id todo_id : Nat)
    (input : TodoCreate) : ReqResult Todo :=
  match validate_todo_create input with
  | .error e => .err st e
  | .ok todo =>
    match dictGet (get_user_todos st user_id).2.1 todo_id with
    | none => .err (get_user_todos st user_id).1 (notFoundErr todo_id)
    | some old =>
      let updated : Todo :=
        { id := todo_id, user_id := user_id, title := todo.title
          description := todo.description, due_date := todo.due_date
          priority := todo.priority, completed := todo.completed
          created_at := old.created_at }
      .ok (writeBack st user_id todo_id updated) updated

/-- `PATCH /todos/a`. -/
def update_todo (st : ServerState) (user_id todo_id : Nat)
    (patch : TodoUpdate) : ReqResult Todo :=
  match validate_todo_update patch with
  | .error e => .err st e
  | .ok p =>
    match dictGet (get_user_todos st user_id).2.1 todo_id with
    | none => .err (get_user_todos st user_id).1 (notFoundErr todo_id)
    | some current =>
      let updated := applyUpdate current p
      .ok (writeBack st user_id todo_id updated) updated

/-- `PATCH /todos/a/toggle`. -/
def toggle_todo_status (st : ServerState) (user_id todo_id : Nat) :
    ReqResult Todo :=
  match dictGet (get_user_todos st user_id).2.1 todo_id with
  | none => .err (get_user_todos st user_id).1 (notFoundErr todo_id)
  | some current =>
    let updated := { current with completed := !current.completed }
    .ok (writeBack st user_id todo_id updated) updated

/-- `DELETE /todos/a`. -/
def delete_todo (st : ServerState) (user_id todo_id : Nat) : ReqResult Unit :=
  match dictGet (get_user_todos st user_id).2.1 todo_id with
  | none => .err (get_user_todos st user_id).1 (notFoundErr todo_id)
  | some _ =>
    .ok { (get_user_todos st user_id).1 with
            user_todos := dictSet (get_user_todos st user_id).1.user_todos user_id
                            (dictDel (get_user_todos st user_id).2.1 todo_id) }
        ()

/-- Decidable id-counter invariant: every stored task id is below its user's
counter. -/
def idInvB (st : ServerState) : Bool :=
  st.user_todos.all (fun p => p.2.all (fun q => q.1 < cOf st.current_todo_id p.1))

/-- A concrete user record for instantiating the theorems. -/
def demoUser : UserData :=
  { id := 1, username := "alice", email := "alice@x.com"
    password := "h-secret1", created_at := "2024-01-01T00:00:00+00:00" }

/-- A concrete stored task owned by user 1. -/
def demoTodo : Todo :=
  { id := 1, user_id := 1, title := "Buy milk", description := none
    due_date := none, priority := 2, completed := false
    created_at := "2024-01-01T00:00:00+00:00" }

/-- A concrete reachable-looking state: user 1 (alice) with one task. -/
def demoState : ServerState :=
  { user_todos := [(1, [(1, demoTodo)])]
    users_db := [("alice", demoUser)]
    sessions := [("tok1", 1)]
    current_user_id := 2
    current_todo_id := [(1, 2)] }

/-- The initial state of the module. -/
def emptyState : ServerState :=
  { user_todos := [], users_db := [], sessions := []
    current_user_id := 1, current_todo_id := [] }

/-- A second user record (bob, id 2). -/
def demoUser2 : UserData :=
  { id := 2, username := "bob", email := "bob@x.com"
    password := "h-secret2", created_at := "2024-01-02T00:00:00+00:00" }

/-- A task owned by user 2 that shares the numeric id 1 with user 1's task. -/
def demoTodo2 : Todo :=
  { id := 1, user_id := 2, title := "Write report", description := none
    due_date := none, priority := 3, completed := false
    created_at := "2024-01-02T00:00:00+00:00" }

/-- A state with two users, each owning a task with numeric id 1. -/
def demoState2 : ServerState :=
  { user_todos := [(1, [(1, demoTodo)]), (2, [(1, demoTodo2)])]
    users_db := [("alice", demoUser), ("bob", demoUser2)]
    sessions := [("tok1", 1), ("tok2", 2)]
    current_user_id := 3
    current_todo_id := [(1, 2), (2, 2)] }

/-- A patch setting only the title, to the one-space string. -/
def demoPatchWS : TodoUpdate :=
  { title := some (some " "), description := none, due_date := none
    priority := none, completed := none }

/-- A patch setting only the completed flag. -/
def demoPatchDone : TodoUpdate :=
  { title := none, description := none, due_date := none
    priority := none, completed := some (some true) }

/-- A patch setting the title to the empty string. -/
def demoPatchEmpty : TodoUpdate :=
  { title := some (some ""), description := none, due_date := none
    priority := none, completed := none }

/-- A valid creation request. -/
def demoCreate : TodoCreate :=
  { title := "Walk dog", description := none, due_date := none
    priority := 1, completed := false }

/-- A creation request whose title is whitespace only. -/
def demoBlank : TodoCreate :=
  { title := "   ", description := none, due_date := none
    priority := 3, completed := false }

/-- A creation request with priority 0. -/
def demoPrio0 : TodoCreate :=
  { title := "Pay rent", description := none, due_date := none
    priority := 0, completed := false }

/-!  ## Association-list lemmas  -/

theorem dictGet_set_self {α β : Type} [DecidableEq α] (d : List (α × β)) (k : α)
    (v : β) : dictGet (dictSet d k v) k = some v := by
  induction d with
  | nil => simp [dictGet, dictSet]
  | cons p rest ih =>
    obtain ⟨k', v'⟩ := p
    by_cases h : k = k' <;> simp [dictGet, dictSet, h, ih]

theorem dictGet_set_ne {α β : Type} [DecidableEq α] (d : List (α × β)) (k k' : α)
    (v : β) (h : k' ≠ k) : dictGet (dictSet d k v) k' = dictGet d k' := by
  induction d with
  | nil => simp [dictGet, dictSet, h]
  | cons p rest ih =>
    obtain ⟨a, b⟩ := p
    by_cases hk : k = a
    · subst hk
      simp [dictGet, dictSet, h]
    · by_cases hk' : k' = a <;> simp [dictGet, dictSet, hk, hk', ih]

theorem dictGet_del_ne {α β : Type} [DecidableEq α] (d : List (α × β)) (k k' : α)
    (h : k' ≠ k) : dictGet (dictDel d k) k' = dictGet d k' := by
  induction d with
  | nil => simp [dictGet, dictDel]
  | cons p rest ih =>
    obtain ⟨a, b⟩ := p
    by_cases hk : k = a
    · subst hk
      simp [dictGet, dictDel, h]
    · by_cases hk' : k' = a <;> simp [dictGet, dictDel, hk, hk', ih]

theorem dictDel_absent {α β : Type} [DecidableEq α] (d : List (α × β)) (k : α)
    (h : dictGet d k = none) : dictDel d k = d := by
  induction d with
  | nil => simp [dictDel]
  | cons p rest ih =>
    obtain ⟨a, b⟩ := p
    by_cases hk : k = a
    · simp [dictGet, hk] at h
    · simp [dictGet, hk] at h
      simp [dictDel, hk, ih h]

theorem dictGet_eq_none_of_not_mem_keys {α β : Type} [DecidableEq α]
    (d : List (α × β)) (k : α) (h : k ∉ d.map Prod.fst) : dictGet d k = none := by
  induction d with
  | nil => simp [dictGet]
  | cons p rest ih =>
    obtain ⟨a, b⟩ := p
    simp only [List.map_cons, List.mem_cons] at h
    push_neg at h
    simp [dictGet, h.1, ih h.2]

theorem dictGet_del_self_of_nodup {α β : Type} [DecidableEq α]
    (d : List (α × β)) (k : α) (h : (d.map Prod.fst).Nodup) :
    dictGet (dictDel d k) k = none := by
  induction d with
  | nil => simp [dictGet, dictDel]
  | cons p rest ih =>
    obtain ⟨a, b⟩ := p
    simp only [List.map_cons, List.nodup_cons] at h
    by_cases hk : k = a
    · rw [show dictDel ((a, b) :: rest) k = rest from by simp [dictDel, hk]]
      exact dictGet_eq_none_of_not_mem_keys rest k (by rw [hk]; exact h.1)
    · simp [dictDel, dictGet, hk, ih h.2]

theorem mem_dictSet {α β : Type} [DecidableEq α] (d : List (α × β)) (k : α)
    (v : β) (x : α × β) (hx : x ∈ dictSet d k v) : x = (k, v) ∨ x ∈ d := by
  induction d with
  | nil => simpa [dictSet] using hx
  | cons p rest ih =>
    obtain ⟨a, b⟩ := p
    by_cases hk : k = a
    · rw [show dictSet ((a, b) :: rest) k v = (k, v) :: rest from by simp [dictSet, hk]]
        at hx
      rcases List.mem_cons.mp hx with h | h
      · exact Or.inl h
      · exact Or.inr (List.mem_cons_of_mem _ h)
    · simp only [dictSet, if_neg hk, List.mem_cons] at hx
      rcases hx with h | h
      · exact Or.inr (by simp [h])
      · rcases ih h with h' | h'
        · exact Or.inl h'
        · exact Or.inr (List.mem_cons_of_mem _ h')

theorem dictGet_mem {α β : Type} [DecidableEq α] (d : List (α × β)) (k : α)
    (v : β) (h : dictGet d k = some v) : (k, v) ∈ d := by
  induction d with
  | nil => simp [dictGet] at h
  | cons p rest ih =>
    obtain ⟨a, b⟩ := p
    by_cases hk : k = a
    · rw [show dictGet ((a, b) :: rest) k = some b from by simp [dictGet, hk]] at h
      injection h with h2
      exact List.mem_cons.mpr (Or.inl (by rw [Prod.mk.injEq]; exact ⟨hk, h2.symm⟩))
    · simp only [dictGet, if_neg hk] at h
      exact List.mem_cons_of_mem _ (ih h)

theorem dictGet_of_dictHas_false {α β : Type} [DecidableEq α] (d : List (α × β))
    (k : α) (h : ¬ dictHas d k = true) : dictGet d k = none := by
  unfold dictHas at h
  exact Option.not_isSome_iff_eq_none.mp (by simpa using h)

/-!  ## `get_user_todos` lemmas: the lazy initialization changes no observable
scope or counter value, and touches no other component of the state.  -/

theorem get_user_todos_scope (st : ServerState) (u : Nat) :
    (get_user_todos st u).2.1 = scopeOf st u := by
  unfold get_user_todos scopeOf
  by_cases h : dictHas st.user_todos u
  · simp [h]
  · rw [if_neg h]
    dsimp only
    rw [dictGet_set_self, dictGet_of_dictHas_false _ _ h]
    rfl

theorem get_user_todos_next (st : ServerState) (u : Nat) :
    (get_user_todos st u).2.2 = cOf st.current_todo_id u := by
  unfold get_user_todos cOf
  by_cases h : dictHas st.current_todo_id u
  · simp [h]
  · rw [if_neg h]
    dsimp only
    rw [dictGet_set_self, dictGet_of_dictHas_false _ _ h]
    rfl

theorem scopeOf_get_user_todos (st : ServerState) (u w : Nat) :
    scopeOf (get_user_todos st u).1 w = scopeOf st w := by
  unfold get_user_todos scopeOf
  by_cases h : dictHas st.user_todos u
  · simp [h]
  · rw [if_neg h]
    dsimp only
    by_cases hw : w = u
    · rw [hw, dictGet_set_self, dictGet_of_dictHas_false _ _ h]
      rfl
    · rw [dictGet_set_ne _ _ _ _ hw]

theorem cOf_get_user_todos (st : ServerState) (u w : Nat) :
    cOf (get_user_todos st u).1.current_todo_id w = cOf st.current_todo_id w := by
  unfold get_user_todos cOf
  by_cases h : dictHas st.current_todo_id u
  · simp [h]
  · rw [if_neg h]
    dsimp only
    by_cases hw : w = u
    · rw [hw, dictGet_set_self, dictGet_of_dictHas_false _ _ h]
      rfl
    · rw [dictGet_set_ne _ _ _ _ hw]

theorem get_user_todos_users_db (st : ServerState) (u : Nat) :
    (get_user_todos st u).1.users_db = st.users_db := rfl

theorem get_user_todos_sessions (st : ServerState) (u : Nat) :
    (get_user_todos st u).1.sessions = st.sessions := rfl

theorem get_user_todos_current_user_id (st : ServerState) (u : Nat) :
    (get_user_todos st u).1.current_user_id = st.current_user_id := rfl

/-!  ## `writeBack` lemmas  -/

theorem scopeOf_writeBack_self (st : ServerState) (u tid : Nat) (t : Todo) :
    scopeOf (writeBack st u tid t) u = dictSet (scopeOf st u) tid t := by
  have h : scopeOf (writeBack st u tid t) u
      = (dictGet (dictSet (get_user_todos st u).1.user_todos u
          (dictSet (get_user_todos st u).2.1 tid t)) u).getD [] := rfl
  rw [h, dictGet_set_self, get_user_todos_scope]
  rfl

theorem scopeOf_writeBack_ne (st : ServerState) (u tid : Nat) (t : Todo)
    (w : Nat) (hw : w ≠ u) : scopeOf (writeBack st u tid t) w = scopeOf st w := by
  have h : scopeOf (writeBack st u tid t) w
      = (dictGet (dictSet (get_user_todos st u).1.user_todos u
          (dictSet (get_user_todos st u).2.1 tid t)) w).getD [] := rfl
  rw [h, dictGet_set_ne _ _ _ _ hw]
  exact scopeOf_get_user_todos st u w

theorem scopeGet_writeBack_self (st : ServerState) (u tid : Nat) (t : Todo) :
    scopeGet (writeBack st u tid t) u tid = some t := by
  unfold scopeGet
  rw [scopeOf_writeBack_self, dictGet_set_self]

theorem cOf_writeBack (st : ServerState) (u tid : Nat) (t : Todo) (w : Nat) :
    cOf (writeBack st u tid t).current_todo_id w = cOf st.current_todo_id w :=
  cOf_get_user_todos st u w

theorem writeBack_users_db (st : ServerState) (u tid : Nat) (t : Todo) :
    (writeBack st u tid t).users_db = st.users_db := rfl

theorem writeBack_sessions (st : ServerState) (u tid : Nat) (t : Todo) :
    (writeBack st u tid t).sessions = st.sessions := rfl

/-!  ## Endpoint characterization lemmas  -/

theorem validate_todo_update_ok (p q : TodoUpdate)
    (h : validate_todo_update p = .ok q) : q = p := by
  unfold validate_todo_update at h
  repeat' split at h
  all_goals simp_all

theorem get_todo_found (st : ServerState) (u tid : Nat) (old : Todo)
    (hold : scopeGet st u tid = some old) :
    get_todo st u tid = .ok (get_user_todos st u).1 old := by
  unfold get_todo
  rw [get_user_todos_scope]
  unfold scopeGet at hold
  rw [hold]

theorem get_todo_missing (st : ServerState) (u tid : Nat)
    (h : scopeGet st u tid = none) :
    get_todo st u tid = .err (get_user_todos st u).1 (notFoundErr tid) := by
  unfold get_todo
  rw [get_user_todos_scope]
  unfold scopeGet at h
  rw [h]

theorem toggle_todo_status_found (st : ServerState) (u tid : Nat) (old : Todo)
    (hold : scopeGet st u tid = some old) :
    toggle_todo_status st u tid
      = .ok (writeBack st u tid { old with completed := !old.completed })
            { old with completed := !old.completed } := by
  unfold toggle_todo_status
  rw [get_user_todos_scope]
  unfold scopeGet at hold
  rw [hold]

theorem toggle_todo_status_missing (st : ServerState) (u tid : Nat)
    (h : scopeGet st u tid = none) :
    toggle_todo_status st u tid = .err (get_user_todos st u).1 (notFoundErr tid) := by
  unfold toggle_todo_status
  rw [get_user_todos_scope]
  unfold scopeGet at h
  rw [h]

theorem replace_todo_found (st : ServerState) (u tid : Nat) (inp tv : TodoCreate)
    (old : Todo) (hv : validate_todo_create inp = .ok tv)
    (hold : scopeGet st u tid = some old) :
    replace_todo st u tid inp
      = .ok (writeBack st u tid
              { id := tid, user_id := u, title := tv.title
                description := tv.description, due_date := tv.due_date
                priority := tv.priority, completed := tv.completed
                created_at := old.created_at })
            { id := tid, user_id := u, title := tv.title
              description := tv.description, due_date := tv.due_date
              priority := tv.priority, completed := tv.completed
              created_at := old.created_at } := by
  unfold replace_todo
  rw [hv, get_user_todos_scope]
  unfold scopeGet at hold
  rw [hold]

theorem replace_todo_missing (st : ServerState) (u tid : Nat) (inp tv : TodoCreate)
    (hv : validate_todo_create inp = .ok tv) (h : scopeGet st u tid = none) :
    replace_todo st u tid inp = .err (get_user_todos st u).1 (notFoundErr tid) := by
  unfold replace_todo
  rw [hv, get_user_todos_scope]
  unfold scopeGet at h
  rw [h]

theorem update_todo_found (st : ServerState) (u tid : Nat) (p : TodoUpdate)
    (old : Todo) (hv : validate_todo_update p = .ok p)
    (hold : scopeGet st u tid = some old) :
    update_todo st u tid p
      = .ok (writeBack st u tid (applyUpdate old p)) (applyUpdate old p) := by
  unfold update_todo
  rw [hv, get_user_todos_scope]
  unfold scopeGet at hold
  rw [hold]

theorem update_todo_missing (st : ServerState) (u tid : Nat) (p q : TodoUpdate)
    (hv : validate_todo_update p = .ok q) (h : scopeGet st u tid = none) :
    update_todo st u tid p = .err (get_user_todos st u).1 (notFoundErr tid) := by
  unfold update_todo
  rw [hv, get_user_todos_scope]
  unfold scopeGet at h
  rw [h]

theorem delete_todo_found (st : ServerState) (u tid : Nat) (old : Todo)
    (hold : scopeGet st u tid = some old) :
    delete_todo st u tid
      = .ok { (get_user_todos st u).1 with
                user_todos := dictSet (get_user_todos st u).1.user_todos u
                                (dictDel (get_user_todos st u).2.1 tid) }
            () := by
  unfold delete_todo
  rw [get_user_todos_scope]
  unfold scopeGet at hold
  rw [hold]

theorem delete_todo_missing (st : ServerState) (u tid : Nat)
    (h : scopeGet st u tid = none) :
    delete_todo st u tid = .err (get_user_todos st u).1 (notFoundErr tid) := by
  unfold delete_todo
  rw [get_user_todos_scope]
  unfold scopeGet at h
  rw [h]

theorem create_todo_ok (st : ServerState) (u : Nat) (inp tv : TodoCreate)
    (now : String) (hv : validate_todo_create inp = .ok tv) :
    create_todo st u inp now
      = .ok { writeBack st u (cOf st.current_todo_id u)
                { id := cOf st.current_todo_id u, user_id := u, title := tv.title
                  description := tv.description, due_date := tv.due_date
                  priority := tv.priority, completed := tv.completed
                  created_at := now } with
                current_todo_id := dictSet (get_user_todos st u).1.current_todo_id u
                                     (cOf st.current_todo_id u + 1) }
            { id := cOf st.current_todo_id u, user_id := u, title := tv.title
              description := tv.description, due_date := tv.due_date
              priority := tv.priority, completed := tv.completed
              created_at := now } := by
  unfold create_todo
  rw [hv]
  rw [get_user_todos_next]

theorem replace_todo_invalid (st : ServerState) (u tid : Nat) (inp : TodoCreate)
    (e : HTTPError) (hv : validate_todo_create inp = .error e) :
    replace_todo st u tid inp = .err st e := by
  unfold replace_todo
  rw [hv]

theorem update_todo_invalid (st : ServerState) (u tid : Nat) (p : TodoUpdate)
    (e : HTTPError) (hv : validate_todo_update p = .error e) :
    update_todo st u tid p = .err st e := by
  unfold update_todo
  rw [hv]

theorem create_todo_invalid (st : ServerState) (u : Nat) (inp : TodoCreate)
    (now : String) (e : HTTPError) (hv : validate_todo_create inp = .error e) :
    create_todo st u inp now = .err st e := by
  unfold create_todo
  rw [hv]

/-!  ## Claim theorems  -/

/-- C7: for an existing task, `created_at` is never changed after creation:
a successful replace stores the new field values but keeps the original
record's `created_at`, and neither a PATCH nor a toggle can alter it; in each
case the stored record is the returned record. -/
theorem created_at_immutable (st : ServerState) (u tid : Nat) (old : Todo)
    (inp : TodoCreate) (patch : TodoUpdate)
    (hold : scopeGet st u tid = some old) :
    (∀ st' t, replace_todo st u tid inp = .ok st' t →
       t.created_at = old.created_at ∧ scopeGet st' u tid = some t ∧
       (∀ tv, validate_todo_create inp = .ok tv →
          t.title = tv.title ∧ t.description = tv.description ∧
          t.due_date = tv.due_date ∧ t.priority = tv.priority ∧
          t.completed = tv.completed)) ∧
    (∀ st' t, update_todo st u tid patch = .ok st' t →
       t.created_at = old.created_at ∧ scopeGet st' u tid = some t) ∧
    (∀ st' t, toggle_todo_status st u tid = .ok st' t →
       t.created_at = old.created_at ∧ scopeGet st' u tid = some t) := by
  refine ⟨?_, ?_, ?_⟩
  · intro st' t h
    cases hv : validate_todo_create inp with
    | error e =>
      rw [replace_todo_invalid st u tid inp e hv] at h
      exact ReqResult.noConfusion h
    | ok tv =>
      rw [replace_todo_found st u tid inp tv old hv hold] at h
      injection h with h1 h2
      subst h1
      subst h2
      refine ⟨rfl, scopeGet_writeBack_self st u tid _, ?_⟩
      intro tv' hv'
      injection hv' with h4
      rw [← h4]
      exact ⟨rfl, rfl, rfl, rfl, rfl⟩
  · intro st' t h
    cases hv : validate_todo_update patch with
    | error e =>
      rw [update_todo_invalid st u tid patch e hv] at h
      exact ReqResult.noConfusion h
    | ok q =>
      have hq : q = patch := validate_todo_update_ok patch q hv
      rw [hq] at hv
      rw [update_todo_found st u tid patch old hv hold] at h
      injection h with h1 h2
      subst h1
      subst h2
      exact ⟨rfl, scopeGet_writeBack_self st u tid _⟩
  · intro st' t h
    rw [toggle_todo_status_found st u tid old hold] at h
    injection h with h1 h2
    subst h1
    subst h2
    exact ⟨rfl, scopeGet_writeBack_self st u tid _⟩

/-- Witness for C7: toggling the demo task returns and stores a record with
the original creation timestamp. -/
theorem created_at_immutable_witness :
    Todo.created_at { demoTodo with completed := true } = demoTodo.created_at ∧
    scopeGet (writeBack demoState 1 1 { demoTodo with completed := true }) 1 1
      = some { demoTodo with completed := true } :=
  (created_at_immutable demoState 1 1 demoTodo demoCreate demoPatchDone
      (by decide)).2.2
    (writeBack demoState 1 1 { demoTodo with completed := true })
    { demoTodo with completed := true } (by decide)

/-- C8: toggling an existing task flips `completed`, and toggling it twice
returns it to its original value; logout always reports the same success
message, a second logout of the same token is a no-op on the state, and a
logout of a token that is not in the session table leaves the state
unchanged while still reporting success. -/
theorem toggle_twice_logout_twice (st : ServerState) (u tid : Nat) (old : Todo)
    (tok : String) (hold : scopeGet st u tid = some old)
    (hnd : (st.sessions.map Prod.fst).Nodup) :
    (toggle_todo_status st u tid).val?.map Todo.completed
      = some (!old.completed) ∧
    (toggle_todo_status (toggle_todo_status st u tid).state u tid).val?.map
        Todo.completed = some old.completed ∧
    (logout st tok).val? = some "Logged out successfully" ∧
    (logout (logout st tok).state tok).val? = some "Logged out successfully" ∧
    (logout (logout st tok).state tok).state = (logout st tok).state ∧
    (dictGet st.sessions tok = none → (logout st tok).state = st) := by
  have h1 := toggle_todo_status_found st u tid old hold
  refine ⟨?_, ?_, rfl, rfl, ?_, ?_⟩
  · rw [h1]
    rfl
  · rw [h1]
    have h2 := toggle_todo_status_found
      (writeBack st u tid { old with completed := !old.completed }) u tid
      { old with completed := !old.completed }
      (scopeGet_writeBack_self st u tid _)
    dsimp only [ReqResult.state]
    rw [h2]
    dsimp only [ReqResult.val?, Option.map]
    simp
  · have hnone : dictGet (if dictHas st.sessions tok = true
        then dictDel st.sessions tok else st.sessions) tok = none := by
      by_cases h : dictHas st.sessions tok = true
      · rw [if_pos h]
        exact dictGet_del_self_of_nodup _ _ hnd
      · rw [if_neg h]
        exact dictGet_of_dictHas_false _ _ h
    have key : ∀ s2 : ServerState, dictHas s2.sessions tok = false →
        (logout s2 tok).state = s2 := by
      intro s2 h2
      show ({ s2 with sessions := if dictHas s2.sessions tok = true
              then dictDel s2.sessions tok else s2.sessions } : ServerState) = s2
      rw [if_neg (by rw [h2]; exact Bool.false_ne_true)]
    apply key
    show (dictGet (if dictHas st.sessions tok = true
        then dictDel st.sessions tok else st.sessions) tok).isSome = false
    rw [hnone]
    rfl
  · intro h
    have hf : dictHas st.sessions tok = false := by
      show (dictGet st.sessions tok).isSome = false
      rw [h]
      rfl
    show ({ st with sessions := if dictHas st.sessions tok = true
              then dictDel st.sessions tok else st.sessions } : ServerState) = st
    rw [if_neg (by rw [hf]; exact Bool.false_ne_true)]

/-- Witness for C8 on the demo state: two toggles of task 1 and two logouts
of an unknown token, all at concrete inputs. -/
theorem toggle_twice_logout_twice_witness :
    (toggle_todo_status demoState 1 1).val?.map Todo.completed = some true ∧
    (toggle_todo_status (toggle_todo_status demoState 1 1).state 1 1).val?.map
        Todo.completed = some false ∧
    (logout demoState "nosuch").val? = some "Logged out successfully" ∧
    (logout (logout demoState "nosuch").state "nosuch").val?
      = some "Logged out successfully" ∧
    (logout (logout demoState "nosuch").state "nosuch").state
      = (logout demoState "nosuch").state ∧
    (logout demoState "nosuch").state = demoState :=
  have h := toggle_twice_logout_twice demoState 1 1 demoTodo "nosuch"
    (by decide) (by decide)
  ⟨h.1, h.2.1, h.2.2.1, h.2.2.2.1, h.2.2.2.2.1, h.2.2.2.2.2 (by decide)⟩

/-- C6: a login with an unknown username and a login with a known username but
a non-matching stored digest both fail, with the identical status code 401 and
the identical detail message, leaking nothing about which field was wrong. -/
theorem login_uniform_invalid_credentials (st : ServerState) (un pw : String)
    (hashp : String → String) (tok : String) :
    (dictGet st.users_db un = none →
      login st un pw hashp tok = .err st ⟨401, "Invalid username or password"⟩) ∧
    (∀ u : UserData, dictGet st.users_db un = some u → u.password ≠ hashp pw →
      login st un pw hashp tok = .err st ⟨401, "Invalid username or password"⟩) := by
  constructor
  · intro h
    unfold login
    rw [h]
  · intro u hu hne
    unfold login
    rw [hu]
    simp only [if_pos hne]

/-- Witness for C6 at a concrete state: unknown user "bob", and "alice" with a
wrong password, yield the very same error. -/
theorem login_uniform_invalid_credentials_witness :
    login demoState "bob" "pw1234" (fun s => "h-" ++ s) "t2"
      = .err demoState ⟨401, "Invalid username or password"⟩ ∧
    login demoState "alice" "wrong1" (fun s => "h-" ++ s) "t2"
      = .err demoState ⟨401, "Invalid username or password"⟩ :=
  ⟨(login_uniform_invalid_credentials demoState "bob" "pw1234"
      (fun s => "h-" ++ s) "t2").1 (by decide),
   (login_uniform_invalid_credentials demoState "alice" "wrong1"
      (fun s => "h-" ++ s) "t2").2 demoUser (by decide) (by decide)⟩

/-- C9: a registration whose body passes request validation but whose username
is already taken fails with the 400 duplicate-username error and leaves the
entire state unchanged: no user record, no session, no task scope, and no
counter is touched. -/
theorem register_duplicate_username_atomic (st : ServerState)
    (inp : UserRegister) (hashp : String → String) (now tok : String)
    (hval : validate_user_register inp = .ok inp)
    (hdup : dictHas st.users_db inp.username = true) :
    register st inp hashp now tok = .err st ⟨400, "Username already exists"⟩ := by
  unfold register
  rw [hval]
  simp only [hdup, if_true]

/-- Witness for C9: re-registering "alice" in the demo state fails with 400
and returns the state untouched. -/
theorem register_duplicate_username_atomic_witness :
    register demoState ⟨"alice", "a2@x.com", "secret2"⟩ (fun s => "h-" ++ s)
      "2024-02-02" "t9" = .err demoState ⟨400, "Username already exists"⟩ :=
  register_duplicate_username_atomic demoState ⟨"alice", "a2@x.com", "secret2"⟩
    (fun s => "h-" ++ s) "2024-02-02" "t9" (by rfl) (by decide)

/-- C10: a registration whose password is shorter than 6 characters is
rejected with a 422 validation error before any state change, whatever the
other fields are. -/
theorem register_short_password_rejected (st : ServerState)
    (inp : UserRegister) (hashp : String → String) (now tok : String)
    (h : inp.password.length < 6) :
    (register st inp hashp now tok).state = st ∧
    (register st inp hashp now tok).errCode = some 422 := by
  unfold register validate_user_register
  by_cases hu : inp.username.length < 3 ∨ 50 < inp.username.length
  · simp [hu, ReqResult.state, ReqResult.errCode, ReqResult.err?]
  · simp [hu, h, ReqResult.state, ReqResult.errCode, ReqResult.err?]

/-- Witness for C10: registering "bob" with the 3-character password "123"
fails with 422 and changes nothing. -/
theorem register_short_password_rejected_witness :
    (register emptyState ⟨"bob", "b@x.com", "123"⟩ (fun s => "h-" ++ s)
      "2024-02-02" "t10").state = emptyState ∧
    (register emptyState ⟨"bob", "b@x.com", "123"⟩ (fun s => "h-" ++ s)
      "2024-02-02" "t10").errCode = some 422 :=
  register_short_password_rejected emptyState ⟨"bob", "b@x.com", "123"⟩
    (fun s => "h-" ++ s) "2024-02-02" "t10" (by decide)


/-!  ## Validation lemmas for `TodoCreate`  -/

theorem validate_todo_create_fails_blank (t : TodoCreate)
    (h : pyStrip t.title = "") :
    exceptErrCode (validate_todo_create t) = some 422 := by
  unfold validate_todo_create
  by_cases h1 : t.title.length < 1
  · rw [if_pos h1]
    rfl
  · rw [if_neg h1]
    by_cases h2 : 100 < t.title.length
    · rw [if_pos h2]
      rfl
    · rw [if_neg h2, if_pos h]
      rfl

theorem validate_todo_create_fails_priority (t : TodoCreate)
    (h : t.priority < 1 ∨ 5 < t.priority) :
    exceptErrCode (validate_todo_create t) = some 422 := by
  unfold validate_todo_create
  by_cases h1 : t.title.length < 1
  · rw [if_pos h1]
    rfl
  · rw [if_neg h1]
    by_cases h2 : 100 < t.title.length
    · rw [if_pos h2]
      rfl
    · rw [if_neg h2]
      by_cases h3 : pyStrip t.title = ""
      · rw [if_pos h3]
        rfl
      · rw [if_neg h3]
        by_cases h4 : ¬ descLenOk t.description
        · rw [if_pos h4]
          rfl
        · rw [if_neg h4, if_pos h]
          rfl

theorem validate_todo_create_ok_of (t : TodoCreate)
    (h1 : 1 ≤ t.title.length) (h2 : t.title.length ≤ 100)
    (h3 : ¬ pyStrip t.title = "") (h4 : descLenOk t.description = true)
    (h5 : 1 ≤ t.priority) (h6 : t.priority ≤ 5) :
    validate_todo_create t = .ok { t with title := pyStrip t.title } := by
  unfold validate_todo_create
  rw [if_neg (by omega), if_neg (by omega), if_neg h3,
    if_neg (fun hh => hh h4), if_neg (by omega)]

theorem create_todo_err_of_invalid (st : ServerState) (u : Nat)
    (inp : TodoCreate) (now : String)
    (h : exceptErrCode (validate_todo_create inp) = some 422) :
    (create_todo st u inp now).errCode = some 422 ∧
    (create_todo st u inp now).state = st := by
  cases hv : validate_todo_create inp with
  | error e =>
    rw [create_todo_invalid st u inp now e hv]
    rw [hv] at h
    unfold exceptErrCode at h
    injection h with h2
    exact ⟨by rw [ReqResult.errCode]; rw [show (ReqResult.err st e : ReqResult Todo).err? = some e from rfl]; rw [Option.map, h2], rfl⟩
  | ok q =>
    rw [hv] at h
    exact absurd h (by rw [exceptErrCode]; exact fun hh => Option.noConfusion hh)

/-- C5: `Create` rejects a whitespace-only title with a 422 validation error
and no state change, likewise priority 0 or 6; with a valid title and
description, priorities 1 and 5 are accepted and the task is stored (with the
trimmed title) and returned. -/
theorem create_todo_boundaries (st : ServerState) (u : Nat) (inp : TodoCreate)
    (now : String) :
    (pyStrip inp.title = "" →
       (create_todo st u inp now).errCode = some 422 ∧
       (create_todo st u inp now).state = st) ∧
    ((inp.priority = 0 ∨ inp.priority = 6) →
       (create_todo st u inp now).errCode = some 422 ∧
       (create_todo st u inp now).state = st) ∧
    (1 ≤ inp.title.length → inp.title.length ≤ 100 → ¬ pyStrip inp.title = "" →
     descLenOk inp.description = true → (inp.priority = 1 ∨ inp.priority = 5) →
       (create_todo st u inp now).val?.isSome = true ∧
       ∀ st' t, create_todo st u inp now = .ok st' t →
         scopeGet st' u t.id = some t ∧ t.priority = inp.priority ∧
         t.title = pyStrip inp.title ∧ t.completed = inp.completed) := by
  refine ⟨?_, ?_, ?_⟩
  · intro h
    exact create_todo_err_of_invalid st u inp now
      (validate_todo_create_fails_blank inp h)
  · intro h
    apply create_todo_err_of_invalid
    apply validate_todo_create_fails_priority
    rcases h with h | h <;> rw [h]
    · exact Or.inl (by norm_num)
    · exact Or.inr (by norm_num)
  · intro h1 h2 h3 h4 h5
    have hp1 : 1 ≤ inp.priority := by
      rcases h5 with h | h <;> norm_num [h]
    have hp2 : inp.priority ≤ 5 := by
      rcases h5 with h | h <;> norm_num [h]
    have hv := validate_todo_create_ok_of inp h1 h2 h3 h4 hp1 hp2
    have heq := create_todo_ok st u inp _ now hv
    constructor
    · rw [heq]
      rfl
    · intro st' t h
      rw [heq] at h
      injection h with hA hB
      subst hA
      subst hB
      exact ⟨scopeGet_writeBack_self st u _ _, rfl, rfl, rfl⟩

/-- Witness for C5: whitespace-only title and priority 0 are rejected without
state change; a priority-1 creation succeeds. -/
theorem create_todo_boundaries_witness :
    ((create_todo emptyState 1 demoBlank "T").errCode = some 422 ∧
     (create_todo emptyState 1 demoBlank "T").state = emptyState) ∧
    ((create_todo emptyState 1 demoPrio0 "T").errCode = some 422 ∧
     (create_todo emptyState 1 demoPrio0 "T").state = emptyState) ∧
    (create_todo demoState 1 demoCreate "T").val?.isSome = true :=
  ⟨(create_todo_boundaries emptyState 1 demoBlank "T").1 (by decide),
   (create_todo_boundaries emptyState 1 demoPrio0 "T").2.1 (Or.inl (by decide)),
   ((create_todo_boundaries demoState 1 demoCreate "T").2.2 (by decide)
      (by decide) (by decide) (by decide) (Or.inl (by decide))).1⟩

/-- C4: a PATCH on an existing task applies exactly the fields that are set
to a non-null value; a field that is set but null, or not set at all, leaves
the stored value unchanged; id, user_id and created_at are never touched; the
stored record is the returned record. -/
theorem patch_presence_semantics (st : ServerState) (u tid : Nat)
    (p : TodoUpdate) (old : Todo) (hold : scopeGet st u tid = some old)
    (hv : validate_todo_update p = .ok p) :
    (update_todo st u tid p).val?.isSome = true ∧
    (∀ st' t, update_todo st u tid p = .ok st' t →
       ((p.title = none ∨ p.title = some none) → t.title = old.title) ∧
       (∀ v, p.title = some (some v) → t.title = v) ∧
       ((p.description = none ∨ p.description = some none) →
          t.description = old.description) ∧
       (∀ v, p.description = some (some v) → t.description = some v) ∧
       ((p.due_date = none ∨ p.due_date = some none) →
          t.due_date = old.due_date) ∧
       (∀ v, p.due_date = some (some v) → t.due_date = some v) ∧
       ((p.priority = none ∨ p.priority = some none) →
          t.priority = old.priority) ∧
       (∀ v, p.priority = some (some v) → t.priority = v) ∧
       ((p.completed = none ∨ p.completed = some none) →
          t.completed = old.completed) ∧
       (∀ v, p.completed = some (some v) → t.completed = v) ∧
       t.id = old.id ∧ t.user_id = old.user_id ∧
       t.created_at = old.created_at ∧ scopeGet st' u tid = some t) := by
  have heq := update_todo_found st u tid p old hv hold
  constructor
  · rw [heq]
    rfl
  · intro st' t h
    rw [heq] at h
    injection h with h1 h2
    subst h1
    subst h2
    refine ⟨?_, ?_, ?_, ?_, ?_, ?_, ?_, ?_, ?_, ?_, rfl, rfl, rfl,
      scopeGet_writeBack_self st u tid _⟩
    · rintro (hc | hc) <;> simp [applyUpdate, hc]
    · intro v hc
      simp [applyUpdate, hc]
    · rintro (hc | hc) <;> simp [applyUpdate, hc]
    · intro v hc
      simp [applyUpdate, hc]
    · rintro (hc | hc) <;> simp [applyUpdate, hc]
    · intro v hc
      simp [applyUpdate, hc]
    · rintro (hc | hc) <;> simp [applyUpdate, hc]
    · intro v hc
      simp [applyUpdate, hc]
    · rintro (hc | hc) <;> simp [applyUpdate, hc]
    · intro v hc
      simp [applyUpdate, hc]

/-- Witness for C4: a patch setting only `completed` flips that field and
leaves title and created_at as stored. -/
theorem patch_presence_semantics_witness :
    Todo.completed (applyUpdate demoTodo demoPatchDone) = true ∧
    Todo.title (applyUpdate demoTodo demoPatchDone) = demoTodo.title ∧
    Todo.created_at (applyUpdate demoTodo demoPatchDone)
      = demoTodo.created_at := by
  obtain ⟨hs, h2⟩ := patch_presence_semantics demoState 1 1 demoPatchDone
    demoTodo (by decide) (by rfl)
  obtain ⟨hA, hB, hC, hD, hE, hF, hG, hH, hI, hJ, hK, hL, hM, hN⟩ :=
    h2 (writeBack demoState 1 1 (applyUpdate demoTodo demoPatchDone))
       (applyUpdate demoTodo demoPatchDone) rfl
  exact ⟨hJ true rfl, hA (Or.inl rfl), hM⟩

/-!  ## Validation lemmas for `TodoUpdate` and claim C1  -/

theorem validate_todo_update_fails_title (p : TodoUpdate) (tl : String)
    (htl : p.title = some (some tl))
    (hbad : tl.length < 1 ∨ 100 < tl.length) :
    exceptErrCode (validate_todo_update p) = some 422 := by
  unfold validate_todo_update
  rw [if_pos (show titleLenBad p.title = true by
    rw [htl]
    unfold titleLenBad
    simp only [Bool.or_eq_true, decide_eq_true_eq]
    exact hbad)]
  rfl

theorem validate_todo_update_fails_desc (p : TodoUpdate) (d : String)
    (hd : p.description = some (some d)) (hbad : 500 < d.length) :
    exceptErrCode (validate_todo_update p) = some 422 := by
  unfold validate_todo_update
  by_cases h1 : titleLenBad p.title = true
  · rw [if_pos h1]
    rfl
  · rw [if_neg h1, if_pos (show descLenBad p.description = true by
      rw [hd]
      unfold descLenBad
      simp only [decide_eq_true_eq]
      exact hbad)]
    rfl

theorem validate_todo_update_fails_priority (p : TodoUpdate) (pr : Int)
    (hp : p.priority = some (some pr)) (hbad : pr < 1 ∨ 5 < pr) :
    exceptErrCode (validate_todo_update p) = some 422 := by
  unfold validate_todo_update
  by_cases h1 : titleLenBad p.title = true
  · rw [if_pos h1]
    rfl
  · rw [if_neg h1]
    by_cases h2 : descLenBad p.description = true
    · rw [if_pos h2]
      rfl
    · rw [if_neg h2, if_pos (show priorityBad p.priority = true by
        rw [hp]
        unfold priorityBad
        simp only [Bool.or_eq_true, decide_eq_true_eq]
        exact hbad)]
      rfl

theorem validate_todo_update_ok_conditions (p q : TodoUpdate)
    (h : validate_todo_update p = .ok q) :
    titleLenBad p.title = false ∧ descLenBad p.description = false ∧
    priorityBad p.priority = false := by
  unfold validate_todo_update at h
  repeat' split at h
  all_goals simp_all

theorem update_todo_err_of_invalid (st : ServerState) (u tid : Nat)
    (p : TodoUpdate)
    (h : exceptErrCode (validate_todo_update p) = some 422) :
    (update_todo st u tid p).errCode = some 422 ∧
    (update_todo st u tid p).state = st := by
  cases hv : validate_todo_update p with
  | error e =>
    rw [update_todo_invalid st u tid p e hv]
    rw [hv] at h
    unfold exceptErrCode at h
    injection h with h2
    exact ⟨by rw [ReqResult.errCode]; rw [show (ReqResult.err st e : ReqResult Todo).err? = some e from rfl]; rw [Option.map, h2], rfl⟩
  | ok q =>
    rw [hv] at h
    exact absurd h (by rw [exceptErrCode]; exact fun hh => Option.noConfusion hh)

/-- C1 (amended): on PATCH, the pydantic `Field` constraints are enforced on
every field that is set to a non-null value — raw title length 1..100,
description at most 500 chars, priority in [1,5] — and a violating patch
fails with a 422 validation error leaving the state unchanged; but the title
is stored exactly as supplied: it is not trimmed, and a whitespace-only title
of raw length at least 1 is accepted (`TodoUpdate` has no strip validator). -/
theorem patch_field_validation (st : ServerState) (u tid : Nat)
    (p : TodoUpdate) :
    (∀ tl, p.title = some (some tl) → (tl.length < 1 ∨ 100 < tl.length) →
       (update_todo st u tid p).errCode = some 422 ∧
       (update_todo st u tid p).state = st) ∧
    (∀ d, p.description = some (some d) → 500 < d.length →
       (update_todo st u tid p).errCode = some 422 ∧
       (update_todo st u tid p).state = st) ∧
    (∀ pr, p.priority = some (some pr) → (pr < 1 ∨ 5 < pr) →
       (update_todo st u tid p).errCode = some 422 ∧
       (update_todo st u tid p).state = st) ∧
    (∀ st' t tl, update_todo st u tid p = .ok st' t →
       p.title = some (some tl) →
       t.title = tl ∧ 1 ≤ tl.length ∧ tl.length ≤ 100) := by
  refine ⟨?_, ?_, ?_, ?_⟩
  · intro tl htl hbad
    exact update_todo_err_of_invalid st u tid p
      (validate_todo_update_fails_title p tl htl hbad)
  · intro d hd hbad
    exact update_todo_err_of_invalid st u tid p
      (validate_todo_update_fails_desc p d hd hbad)
  · intro pr hp hbad
    exact update_todo_err_of_invalid st u tid p
      (validate_todo_update_fails_priority p pr hp hbad)
  · intro st' t tl h htl
    cases hv : validate_todo_update p with
    | error e =>
      rw [update_todo_invalid st u tid p e hv] at h
      exact ReqResult.noConfusion h
    | ok q =>
      have hq : q = p := validate_todo_update_ok p q hv
      rw [hq] at hv
      have hcond := (validate_todo_update_ok_conditions p p hv).1
      rw [htl] at hcond
      unfold titleLenBad at hcond
      simp only [Bool.or_eq_false_iff, decide_eq_false_iff_not] at hcond
      cases hsc : scopeGet st u tid with
      | none =>
        rw [update_todo_missing st u tid p p hv hsc] at h
        exact ReqResult.noConfusion h
      | some old =>
        rw [update_todo_found st u tid p old hv hsc] at h
        injection h with hA hB
        refine ⟨?_, by omega, by omega⟩
        rw [← hB]
        simp [applyUpdate, htl]

/-- Counterexample for C1 as stated: patching the demo task with the
one-space title " " succeeds (no ValidationError), and the stored and
returned title is " ", which is untrimmed and empty after stripping. -/
theorem patch_whitespace_title_accepted :
    (update_todo demoState 1 1 demoPatchWS).val?.map Todo.title = some " " ∧
    (scopeGet (update_todo demoState 1 1 demoPatchWS).state 1 1).map
      Todo.title = some " " ∧
    pyStrip " " = "" ∧
    (update_todo demoState 1 1 demoPatchWS).errCode = none := by
  decide

/-- Witness for the amended C1: an empty-string patch title is rejected with
422 and no state change; the one-space patch title is stored exactly as
supplied. -/
theorem patch_field_validation_witness :
    ((update_todo demoState 1 1 demoPatchEmpty).errCode = some 422 ∧
     (update_todo demoState 1 1 demoPatchEmpty).state = demoState) ∧
    (Todo.title (applyUpdate demoTodo demoPatchWS) = " " ∧
     1 ≤ String.length " " ∧ String.length " " ≤ 100) :=
  ⟨(patch_field_validation demoState 1 1 demoPatchEmpty).1 "" rfl
     (Or.inl (by decide)),
   (patch_field_validation demoState 1 1 demoPatchWS).2.2.2
     (writeBack demoState 1 1 (applyUpdate demoTodo demoPatchWS))
     (applyUpdate demoTodo demoPatchWS) " " (by decide) rfl⟩

/-!  ## Isolation lemmas and claim C2  -/

theorem scopeOf_setScope_ne (st : ServerState) (v : Nat)
    (X : List (Nat × Todo)) (u : Nat) (hu : u ≠ v) :
    scopeOf { (get_user_todos st v).1 with
                user_todos := dictSet (get_user_todos st v).1.user_todos v X } u
      = scopeOf st u := by
  have h : scopeOf { (get_user_todos st v).1 with
      user_todos := dictSet (get_user_todos st v).1.user_todos v X } u
      = (dictGet (dictSet (get_user_todos st v).1.user_todos v X) u).getD [] := rfl
  rw [h, dictGet_set_ne _ _ _ _ hu]
  exact scopeOf_get_user_todos st v u

theorem cOf_setCounter_ne (st : ServerState) (v n u : Nat) (hu : u ≠ v) :
    cOf (dictSet (get_user_todos st v).1.current_todo_id v n) u
      = cOf st.current_todo_id u := by
  unfold cOf
  rw [dictGet_set_ne _ _ _ _ hu]
  exact cOf_get_user_todos st v u

/-- C2: per-user isolation.  For two distinct users u and v, every todo
operation performed with v's identity leaves u's scope and u's id counter
unchanged; List under v returns exactly the values of v's scope and Get under
v returns a task of v's scope; and when an id is absent from v's scope —
whether or not u owns a task with the same numeric id — Get, Replace,
PATCH, Toggle and Delete under v all fail with 404 (Replace and PATCH
provided their body passes validation, which is checked before the lookup). -/
theorem task_isolation (st : ServerState) (u v : Nat) (huv : u ≠ v)
    (tid : Nat) (inp : TodoCreate) (p : TodoUpdate) (now : String) :
    (scopeOf (create_todo st v inp now).state u = scopeOf st u ∧
     cOf (create_todo st v inp now).state.current_todo_id u
       = cOf st.current_todo_id u) ∧
    (scopeOf (list_todos st v).state u = scopeOf st u ∧
     cOf (list_todos st v).state.current_todo_id u
       = cOf st.current_todo_id u) ∧
    (scopeOf (get_todo st v tid).state u = scopeOf st u ∧
     cOf (get_todo st v tid).state.current_todo_id u
       = cOf st.current_todo_id u) ∧
    (scopeOf (replace_todo st v tid inp).state u = scopeOf st u ∧
     cOf (replace_todo st v tid inp).state.current_todo_id u
       = cOf st.current_todo_id u) ∧
    (scopeOf (update_todo st v tid p).state u = scopeOf st u ∧
     cOf (update_todo st v tid p).state.current_todo_id u
       = cOf st.current_todo_id u) ∧
    (scopeOf (toggle_todo_status st v tid).state u = scopeOf st u ∧
     cOf (toggle_todo_status st v tid).state.current_todo_id u
       = cOf st.current_todo_id u) ∧
    (scopeOf (delete_todo st v tid).state u = scopeOf st u ∧
     cOf (delete_todo st v tid).state.current_todo_id u
       = cOf st.current_todo_id u) ∧
    (list_todos st v).val? = some ((scopeOf st v).map Prod.snd) ∧
    (∀ t, (get_todo st v tid).val? = some t → scopeGet st v tid = some t) ∧
    (scopeGet st v tid = none →
       (get_todo st v tid).errCode = some 404 ∧
       (toggle_todo_status st v tid).errCode = some 404 ∧
       (delete_todo st v tid).errCode = some 404 ∧
       (∀ q, validate_todo_create inp = .ok q →
          (replace_todo st v tid inp).errCode = some 404) ∧
       (∀ q, validate_todo_update p = .ok q →
          (update_todo st v tid p).errCode = some 404)) := by
  have hinit : scopeOf (get_user_todos st v).1 u = scopeOf st u ∧
      cOf (get_user_todos st v).1.current_todo_id u = cOf st.current_todo_id u :=
    ⟨scopeOf_get_user_todos st v u, cOf_get_user_todos st v u⟩
  refine ⟨?_, hinit, ?_, ?_, ?_, ?_, ?_, ?_, ?_, ?_⟩
  · cases hv : validate_todo_create inp with
    | error e =>
      rw [create_todo_invalid st v inp now e hv]
      exact ⟨rfl, rfl⟩
    | ok q =>
      rw [create_todo_ok st v inp q now hv]
      exact ⟨scopeOf_writeBack_ne st v _ _ u huv, cOf_setCounter_ne st v _ u huv⟩
  · cases hsc : scopeGet st v tid with
    | none =>
      rw [get_todo_missing st v tid hsc]
      exact hinit
    | some t =>
      rw [get_todo_found st v tid t hsc]
      exact hinit
  · cases hv : validate_todo_create inp with
    | error e =>
      rw [replace_todo_invalid st v tid inp e hv]
      exact ⟨rfl, rfl⟩
    | ok q =>
      cases hsc : scopeGet st v tid with
      | none =>
        rw [replace_todo_missing st v tid inp q hv hsc]
        exact hinit
      | some t =>
        rw [replace_todo_found st v tid inp q t hv hsc]
        exact ⟨scopeOf_writeBack_ne st v _ _ u huv, cOf_writeBack st v tid _ u⟩
  · cases hv : validate_todo_update p with
    | error e =>
      rw [update_todo_invalid st v tid p e hv]
      exact ⟨rfl, rfl⟩
    | ok q =>
      have hq : q = p := validate_todo_update_ok p q hv
      rw [hq] at hv
      cases hsc : scopeGet st v tid with
      | none =>
        rw [update_todo_missing st v tid p p hv hsc]
        exact hinit
      | some t =>
        rw [update_todo_found st v tid p t hv hsc]
        exact ⟨scopeOf_writeBack_ne st v _ _ u huv, cOf_writeBack st v tid _ u⟩
  · cases hsc : scopeGet st v tid with
    | none =>
      rw [toggle_todo_status_missing st v tid hsc]
      exact hinit
    | some t =>
      rw [toggle_todo_status_found st v tid t hsc]
      exact ⟨scopeOf_writeBack_ne st v _ _ u huv, cOf_writeBack st v tid _ u⟩
  · cases hsc : scopeGet st v tid with
    | none =>
      rw [delete_todo_missing st v tid hsc]
      exact hinit
    | some t =>
      rw [delete_todo_found st v tid t hsc]
      exact ⟨scopeOf_setScope_ne st v _ u huv, cOf_get_user_todos st v u⟩
  · show some ((get_user_todos st v).2.1.map Prod.snd)
      = some ((scopeOf st v).map Prod.snd)
    rw [get_user_todos_scope]
  · intro t h
    cases hsc : scopeGet st v tid with
    | none =>
      rw [get_todo_missing st v tid hsc] at h
      exact Option.noConfusion h
    | some t2 =>
      rw [get_todo_found st v tid t2 hsc] at h
      injection h with h2
      exact congrArg some h2
  · intro hnone
    refine ⟨?_, ?_, ?_, ?_, ?_⟩
    · rw [get_todo_missing st v tid hnone]
      rfl
    · rw [toggle_todo_status_missing st v tid hnone]
      rfl
    · rw [delete_todo_missing st v tid hnone]
      rfl
    · intro q hv
      rw [replace_todo_missing st v tid inp q hv hnone]
      rfl
    · intro q hv
      rw [update_todo_missing st v tid p q hv hnone]
      rfl

/-- Witness for C2 on the two-user state in which both users own a task with
numeric id 1: user 2 toggling its own task 1 leaves user 1's scope and
counter unchanged, and id 7, absent from user 2's scope, yields 404 for Get,
Toggle and Delete under user 2's identity. -/
theorem task_isolation_witness :
    (scopeOf (toggle_todo_status demoState2 2 1).state 1
       = scopeOf demoState2 1 ∧
     cOf (toggle_todo_status demoState2 2 1).state.current_todo_id 1
       = cOf demoState2.current_todo_id 1) ∧
    (get_todo demoState2 2 7).errCode = some 404 ∧
    (toggle_todo_status demoState2 2 7).errCode = some 404 ∧
    (delete_todo demoState2 2 7).errCode = some 404 :=
  have h1 := task_isolation demoState2 1 2 (by decide) 1 demoCreate
    demoPatchDone "T"
  have h2 := task_isolation demoState2 1 2 (by decide) 7 demoCreate
    demoPatchDone "T"
  have h404 := h2.2.2.2.2.2.2.2.2.2 (by decide)
  ⟨h1.2.2.2.2.2.1, h404.1, h404.2.1, h404.2.2.1⟩

/-!  ## Id-counter invariant lemmas and claim C3  -/

theorem mem_dictDel {α β : Type} [DecidableEq α] (d : List (α × β)) (k : α)
    (x : α × β) (hx : x ∈ dictDel d k) : x ∈ d := by
  induction d with
  | nil => simp [dictDel] at hx
  | cons p rest ih =>
    obtain ⟨a, b⟩ := p
    by_cases hk : k = a
    · rw [show dictDel ((a, b) :: rest) k = rest from by simp [dictDel, hk]] at hx
      exact List.mem_cons_of_mem _ hx
    · rw [show dictDel ((a, b) :: rest) k = (a, b) :: dictDel rest k from by
        simp [dictDel, hk]] at hx
      rcases List.mem_cons.mp hx with h | h
      · exact List.mem_cons.mpr (Or.inl h)
      · exact List.mem_cons_of_mem _ (ih h)

theorem idInvB_forall (st : ServerState) :
    idInvB st = true ↔
      ∀ pr ∈ st.user_todos, ∀ q ∈ pr.2, q.1 < cOf st.current_todo_id pr.1 := by
  unfold idInvB
  rw [List.all_eq_true]
  constructor
  · intro h pr hpr q hq
    have h2 := h pr hpr
    rw [List.all_eq_true] at h2
    simpa using h2 q hq
  · intro h pr hpr
    rw [List.all_eq_true]
    intro q hq
    simpa using h pr hpr q hq

theorem idInvB_scope_bound (st : ServerState) (w : Nat)
    (h : idInvB st = true) (q : Nat × Todo) (hq : q ∈ scopeOf st w) :
    q.1 < cOf st.current_todo_id w := by
  rw [idInvB_forall] at h
  unfold scopeOf at hq
  cases hg : dictGet st.user_todos w with
  | none =>
    rw [hg] at hq
    exact absurd hq (List.not_mem_nil q)
  | some todos =>
    rw [hg] at hq
    exact h (w, todos) (dictGet_mem _ _ _ hg) q hq

theorem scopeGet_bound (st : ServerState) (u tid : Nat) (old : Todo)
    (hinv : idInvB st = true) (hsc : scopeGet st u tid = some old) :
    tid < cOf st.current_todo_id u :=
  idInvB_scope_bound st u hinv (tid, old) (dictGet_mem _ _ _ hsc)

theorem idInvB_get_user_todos (st : ServerState) (w : Nat)
    (h : idInvB st = true) : idInvB (get_user_todos st w).1 = true := by
  rw [idInvB_forall] at h ⊢
  intro pr hpr q hq
  rw [cOf_get_user_todos]
  have hpr2 : pr ∈ (if dictHas st.user_todos w = true then st.user_todos
      else dictSet st.user_todos w []) := hpr
  by_cases hw : dictHas st.user_todos w = true
  · rw [if_pos hw] at hpr2
    exact h pr hpr2 q hq
  · rw [if_neg hw] at hpr2
    rcases mem_dictSet _ _ _ _ hpr2 with heq | hmem
    · rw [heq] at hq
      exact absurd hq (List.not_mem_nil q)
    · exact h pr hmem q hq

theorem idInvB_set_scope (st : ServerState) (w : Nat) (X : List (Nat × Todo))
    (C2 : List (Nat × Nat)) (h : idInvB st = true)
    (hmono : ∀ y, cOf st.current_todo_id y ≤ cOf C2 y)
    (hX : ∀ q ∈ X, q.1 < cOf C2 w) :
    idInvB { (get_user_todos st w).1 with
               user_todos := dictSet (get_user_todos st w).1.user_todos w X
               current_todo_id := C2 } = true := by
  have h1 := idInvB_get_user_todos st w h
  rw [idInvB_forall] at h1 ⊢
  intro pr hpr q hq
  have hpr2 : pr ∈ dictSet (get_user_todos st w).1.user_todos w X := hpr
  rcases mem_dictSet _ _ _ _ hpr2 with heq | hmem
  · rw [heq] at hq ⊢
    exact hX q hq
  · have hb := h1 pr hmem q hq
    calc q.1 < cOf (get_user_todos st w).1.current_todo_id pr.1 := hb
      _ = cOf st.current_todo_id pr.1 := cOf_get_user_todos st w pr.1
      _ ≤ cOf C2 pr.1 := hmono pr.1

theorem idInvB_writeBack (st : ServerState) (u tid : Nat) (t : Todo)
    (hinv : idInvB st = true) (hb : tid < cOf st.current_todo_id u) :
    idInvB (writeBack st u tid t) = true := by
  have hres := idInvB_set_scope st u (dictSet (get_user_todos st u).2.1 tid t)
    ((get_user_todos st u).1.current_todo_id) hinv
    (fun y => le_of_eq (cOf_get_user_todos st u y).symm) ?_
  · exact hres
  · intro q hq
    rw [cOf_get_user_todos st u u]
    rcases mem_dictSet _ _ _ _ hq with heq | hmem
    · rw [heq]
      exact hb
    · have hs : q ∈ scopeOf st u := by
        rw [← get_user_todos_scope st u]
        exact hmem
      exact idInvB_scope_bound st u hinv q hs

/-- C3: per-user id assignment is a monotonic counter.  Given the id
invariant (every stored id is below its user's counter), a successful create
returns the task under the current counter value, strictly above every id in
that user's scope (hence fresh and increasing), stores it, and bumps the
counter; on a user with no counter entry the first id is 1; delete never
changes any counter, so a deleted id is never handed out again; create leaves
every other user's counter untouched; and the invariant is preserved by
create, delete, toggle, replace and PATCH.  Concretely: deleting task 1 of
the demo user makes Get 404 and the next create returns id 2, not 1. -/
theorem ids_monotonic (st : ServerState) (u : Nat) (inp : TodoCreate)
    (now : String) (hinv : idInvB st = true) :
    (∀ st' t, create_todo st u inp now = .ok st' t →
       t.id = cOf st.current_todo_id u ∧
       (∀ q ∈ scopeOf st u, q.1 < t.id) ∧
       cOf st'.current_todo_id u = t.id + 1 ∧
       scopeGet st' u t.id = some t) ∧
    (dictGet st.current_todo_id u = none →
       ∀ st' t, create_todo st u inp now = .ok st' t → t.id = 1) ∧
    (∀ tid w, cOf (delete_todo st u tid).state.current_todo_id w
       = cOf st.current_todo_id w) ∧
    (∀ v, v ≠ u → cOf (create_todo st u inp now).state.current_todo_id v
       = cOf st.current_todo_id v) ∧
    idInvB (create_todo st u inp now).state = true ∧
    (∀ tid, idInvB (delete_todo st u tid).state = true) ∧
    (∀ tid, idInvB (toggle_todo_status st u tid).state = true) ∧
    (∀ tid inp2, idInvB (replace_todo st u tid inp2).state = true) ∧
    (∀ tid p, idInvB (update_todo st u tid p).state = true) ∧
    ((create_todo (delete_todo demoState 1 1).state 1 demoCreate "T").val?.map
        Todo.id = some 2 ∧
     (get_todo (delete_todo demoState 1 1).state 1 1).errCode = some 404) := by
  have hA : ∀ st' t, create_todo st u inp now = .ok st' t →
      t.id = cOf st.current_todo_id u ∧
      (∀ q ∈ scopeOf st u, q.1 < t.id) ∧
      cOf st'.current_todo_id u = t.id + 1 ∧
      scopeGet st' u t.id = some t := by
    intro st' t h
    cases hv : validate_todo_create inp with
    | error e =>
      rw [create_todo_invalid st u inp now e hv] at h
      exact ReqResult.noConfusion h
    | ok q =>
      rw [create_todo_ok st u inp q now hv] at h
      injection h with hS hT
      subst hS
      subst hT
      refine ⟨rfl, ?_, ?_, scopeGet_writeBack_self st u _ _⟩
      · intro q2 hq2
        exact idInvB_scope_bound st u hinv q2 hq2
      · show cOf (dictSet (get_user_todos st u).1.current_todo_id u
          (cOf st.current_todo_id u + 1)) u = cOf st.current_todo_id u + 1
        unfold cOf
        rw [dictGet_set_self]
        rfl
  refine ⟨hA, ?_, ?_, ?_, ?_, ?_, ?_, ?_, ?_, by decide, by decide⟩
  · intro hc st' t h
    have ht := (hA st' t h).1
    rw [ht]
    unfold cOf
    rw [hc]
    rfl
  · intro tid w
    cases hsc : scopeGet st u tid with
    | none =>
      rw [delete_todo_missing st u tid hsc]
      exact cOf_get_user_todos st u w
    | some old =>
      rw [delete_todo_found st u tid old hsc]
      exact cOf_get_user_todos st u w
  · intro v hv'
    cases hval : validate_todo_create inp with
    | error e =>
      rw [create_todo_invalid st u inp now e hval]
      rfl
    | ok q =>
      rw [create_todo_ok st u inp q now hval]
      exact cOf_setCounter_ne st u _ v hv'
  · cases hval : validate_todo_create inp with
    | error e =>
      rw [create_todo_invalid st u inp now e hval]
      exact hinv
    | ok q =>
      rw [create_todo_ok st u inp q now hval]
      have hres := idInvB_set_scope st u
        (dictSet (get_user_todos st u).2.1 (cOf st.current_todo_id u)
          { id := cOf st.current_todo_id u, user_id := u, title := q.title
            description := q.description, due_date := q.due_date
            priority := q.priority, completed := q.completed
            created_at := now })
        (dictSet (get_user_todos st u).1.current_todo_id u
          (cOf st.current_todo_id u + 1)) hinv ?_ ?_
      · exact hres
      · intro y
        by_cases hy : y = u
        · rw [hy]
          have hc2 : cOf (dictSet (get_user_todos st u).1.current_todo_id u
              (cOf st.current_todo_id u + 1)) u
              = cOf st.current_todo_id u + 1 := by
            unfold cOf
            rw [dictGet_set_self]
            rfl
          rw [hc2]
          exact Nat.le_succ _
        · have hc2 : cOf (dictSet (get_user_todos st u).1.current_todo_id u
              (cOf st.current_todo_id u + 1)) y
              = cOf st.current_todo_id y := by
            unfold cOf
            rw [dictGet_set_ne _ _ _ _ hy]
            exact congrArg (fun o => Option.getD o 1)
              (congrArg (fun d => dictGet d y) rfl) |>.trans
              (cOf_get_user_todos st u y)
          rw [hc2]
      · intro q2 hq2
        have hc2 : cOf (dictSet (get_user_todos st u).1.current_todo_id u
            (cOf st.current_todo_id u + 1)) u
            = cOf st.current_todo_id u + 1 := by
          unfold cOf
          rw [dictGet_set_self]
          rfl
        rw [hc2]
        rcases mem_dictSet _ _ _ _ hq2 with heq | hmem
        · rw [heq]
          exact Nat.lt_succ_self _
        · have hs : q2 ∈ scopeOf st u := by
            rw [← get_user_todos_scope st u]
            exact hmem
          exact Nat.lt_succ_of_lt (idInvB_scope_bound st u hinv q2 hs)
  · intro tid
    cases hsc : scopeGet st u tid with
    | none =>
      rw [delete_todo_missing st u tid hsc]
      exact idInvB_get_user_todos st u hinv
    | some old =>
      rw [delete_todo_found st u tid old hsc]
      have hres := idInvB_set_scope st u (dictDel (get_user_todos st u).2.1 tid)
        ((get_user_todos st u).1.current_todo_id) hinv
        (fun y => le_of_eq (cOf_get_user_todos st u y).symm) ?_
      · exact hres
      · intro q2 hq2
        rw [cOf_get_user_todos st u u]
        have hs : q2 ∈ scopeOf st u := by
          rw [← get_user_todos_scope st u]
          exact mem_dictDel _ _ _ hq2
        exact idInvB_scope_bound st u hinv q2 hs
  · intro tid
    cases hsc : scopeGet st u tid with
    | none =>
      rw [toggle_todo_status_missing st u tid hsc]
      exact idInvB_get_user_todos st u hinv
    | some old =>
      rw [toggle_todo_status_found st u tid old hsc]
      exact idInvB_writeBack st u tid _ hinv (scopeGet_bound st u tid old hinv hsc)
  · intro tid inp2
    cases hv2 : validate_todo_create inp2 with
    | error e =>
      rw [replace_todo_invalid st u tid inp2 e hv2]
      exact hinv
    | ok q2 =>
      cases hsc : scopeGet st u tid with
      | none =>
        rw [replace_todo_missing st u tid inp2 q2 hv2 hsc]
        exact idInvB_get_user_todos st u hinv
      | some old =>
        rw [replace_todo_found st u tid inp2 q2 old hv2 hsc]
        exact idInvB_writeBack st u tid _ hinv
          (scopeGet_bound st u tid old hinv hsc)
  · intro tid p
    cases hv2 : validate_todo_update p with
    | error e =>
      rw [update_todo_invalid st u tid p e hv2]
      exact hinv
    | ok q2 =>
      have hq2 : q2 = p := validate_todo_update_ok p q2 hv2
      rw [hq2] at hv2
      cases hsc : scopeGet st u tid with
      | none =>
        rw [update_todo_missing st u tid p p hv2 hsc]
        exact idInvB_get_user_todos st u hinv
      | some old =>
        rw [update_todo_found st u tid p old hv2 hsc]
        exact idInvB_writeBack st u tid _ hinv
          (scopeGet_bound st u tid old hinv hsc)

/-- Witness for C3: in the demo state (task 1 stored, counter 2) a create
returns id 2, above the existing id 1; and the concrete delete-then-create
scenario returns id 2 with Get of the deleted id returning 404. -/
theorem ids_monotonic_witness :
    ((create_todo (delete_todo demoState 1 1).state 1 demoCreate "T").val?.map
        Todo.id = some 2 ∧
     (get_todo (delete_todo demoState 1 1).state 1 1).errCode = some 404) ∧
    cOf (delete_todo demoState 1 1).state.current_todo_id 1
      = cOf demoState.current_todo_id 1 :=
  have h := ids_monotonic demoState 1 demoCreate "T" (by decide)
  ⟨h.2.2.2.2.2.2.2.2.2, h.2.2.1 1 1⟩

end TodoSecure
